import Mathlib

/-!
Verification of the GPU tensor storage and synchronization layer
(`backends/vulkan/runtime/api/Tensor.h`, namespace `vkcompute`).

The repository provides the header `Tensor.h`; inline members (`numel`,
`nbytes`, `gpu_numel`, `gpu_nbytes`, `size`, `dim`, the const accessors) are
embedded directly from that source.  Out-of-line member bodies
(`vTensorStorage::transition`, `verify`, `discard_and_reallocate`,
`vTensor::update_size_metadata`, `reallocate`, `virtual_resize`, the UBO
accessors, and the `gpu_sizes_` computation) are not part of the provided
sources; those definitions are modelled from the specification, as marked in
their doc comments.
-/

namespace VkCompute

/-- Modelled from the spec: `api::PipelineStage` (Types.h is not under src).
A named phase of GPU execution; `NO_STAGE` is the empty/no-op stage used by
the default `LastAccess`. -/
inductive PipelineStage
  | NO_STAGE
  | COMPUTE
  | HOST
  | TRANSFER
  deriving DecidableEq

/-- Modelled from the spec: `api::MemoryAccessFlags` (Types.h is not under
src).  Read and/or write intent flags for a resource access. -/
structure MemoryAccessFlags where
  read : Bool
  write : Bool
  deriving DecidableEq

def MemoryAccessType.NONE : MemoryAccessFlags := ⟨false, false⟩

def MemoryAccessType.READ : MemoryAccessFlags := ⟨true, false⟩

def MemoryAccessType.WRITE : MemoryAccessFlags := ⟨false, true⟩

def MemoryAccessType.READWRITE : MemoryAccessFlags := ⟨true, true⟩

/-- `LastAccess` (Tensor.h lines 18-30): the most recent {stage, access}
pair that touched the storage resource. -/
structure LastAccess where
  stage : PipelineStage
  access : MemoryAccessFlags
  deriving DecidableEq

/-- The default `LastAccess()` constructor (Tensor.h lines 22-24):
`stage = NO_STAGE`, `access = NONE`. -/
def LastAccess.empty : LastAccess :=
  ⟨PipelineStage.NO_STAGE, MemoryAccessType.NONE⟩

/-- Modelled from the spec: `api::StorageType` (Types.h is not under src). -/
inductive StorageType
  | BUFFER
  | TEXTURE_1D
  | TEXTURE_2D
  | TEXTURE_3D
  deriving DecidableEq

/-- Modelled from the spec: `api::GPUMemoryLayout` (Types.h is not under
src).  Selects which logical dimension is packed/vectorized. -/
inductive GPUMemoryLayout
  | TENSOR_WIDTH_PACKED
  | TENSOR_HEIGHT_PACKED
  | TENSOR_CHANNELS_PACKED
  deriving DecidableEq

/-- Modelled from the spec: `api::ScalarType` (Types.h is not under src),
treated as an opaque enumerated value with an element-size lookup table. -/
inductive ScalarType
  | Bool
  | Char
  | Half
  | Float
  | Int
  deriving DecidableEq

/-- Modelled from the spec: `api::element_size` lookup table
(element-size-in-bytes for each scalar type); float32 occupies 4 bytes. -/
def element_size : ScalarType → Nat
  | ScalarType.Bool => 1
  | ScalarType.Char => 1
  | ScalarType.Half => 2
  | ScalarType.Float => 4
  | ScalarType.Int => 4

/-- `api::utils::multiply_integers`: product of a list of sizes. -/
def multiply_integers (l : List Nat) : Nat := l.prod

/-- Modelled from the spec: round a size up to the next multiple of the
fixed vector width 4 ("one dimension is rounded up to the next multiple of a
fixed vector width (4)"). -/
def align_up4 (n : Nat) : Nat := ((n + 3) / 4) * 4

/-- Modelled from the spec: the index of the dimension selected by the
memory layout, counting from the innermost (width) dimension at the end of
the size list: width-packed selects the last dimension, height-packed the
second-to-last, channels-packed the third-to-last. -/
def packed_dim (layout : GPUMemoryLayout) (ndim : Nat) : Nat :=
  match layout with
  | GPUMemoryLayout.TENSOR_WIDTH_PACKED => ndim - 1
  | GPUMemoryLayout.TENSOR_HEIGHT_PACKED => ndim - 2
  | GPUMemoryLayout.TENSOR_CHANNELS_PACKED => ndim - 3

/-- Helper: pad the element at position `packed` (positions counted from
`i`) up to a multiple of 4, leaving all other elements unchanged. -/
def pad_packed (packed : Nat) : Nat → List Nat → List Nat
  | _, [] => []
  | i, s :: rest =>
      (if i = packed then align_up4 s else s) :: pad_packed packed (i + 1) rest

/-- Modelled from the spec: the `gpu_sizes_` computation ("the padded shape
actually realized in GPU memory; one dimension (selected by `memory_layout`)
is rounded up to the next multiple of a fixed vector width (4)").  The
computation itself lives in Tensor.cpp, which is not under src. -/
def calc_gpu_sizes (sizes : List Nat) (layout : GPUMemoryLayout) : List Nat :=
  pad_packed (packed_dim layout sizes.length) 0 sizes

/-- `api::utils::uvec3` — a 3-component unsigned vector. -/
structure UVec3 where
  x : Nat
  y : Nat
  z : Nat
  deriving DecidableEq

/-- Size of dimension `i` counted from the innermost (width) end of the size
list, defaulting to 1 for ranks smaller than `i + 1` (WHCN ordering). -/
def dim_whcn (sizes : List Nat) (i : Nat) : Nat :=
  if i < sizes.length then sizes.getD (sizes.length - 1 - i) 1 else 1

/-- Modelled from the spec: physical image extents derived from the padded
GPU sizes ("`physical_extents` derived accordingly"): the packed dimension
is divided by the vector width 4, the batch dimension folds into depth. -/
def calc_extents (gpu_sizes : List Nat) (layout : GPUMemoryLayout) : UVec3 :=
  let W := dim_whcn gpu_sizes 0
  let H := dim_whcn gpu_sizes 1
  let C := dim_whcn gpu_sizes 2
  let N := (gpu_sizes.take (gpu_sizes.length - 3)).prod
  match layout with
  | GPUMemoryLayout.TENSOR_WIDTH_PACKED => ⟨W / 4, H, C * N⟩
  | GPUMemoryLayout.TENSOR_HEIGHT_PACKED => ⟨W, H / 4, C * N⟩
  | GPUMemoryLayout.TENSOR_CHANNELS_PACKED => ⟨W, H, (C / 4) * N⟩

/-- An image texture handle; `handle_id` models the identity of the
underlying `VkImage` so that reallocation (a fresh native handle) is
observable. -/
structure VulkanImage where
  handle_id : Nat
  image_extents : UVec3
  deriving DecidableEq

/-- A linear buffer handle; `handle_id` models the identity of the
underlying `VkBuffer`. -/
structure VulkanBuffer where
  handle_id : Nat
  length : Nat
  deriving DecidableEq

/-- `vTensorStorage` (Tensor.h lines 32-94): owns one physical GPU memory
object (image or buffer) plus the `last_access_` record used for barrier
insertion.  `capacity` models the byte footprint of the current physical
allocation and `next_handle_id` the supply of fresh native handles. -/
structure vTensorStorage where
  storage_type : StorageType
  extents : UVec3
  buffer_length : Nat
  image : Option VulkanImage
  buffer : Option VulkanBuffer
  last_access : LastAccess
  capacity : Nat
  next_handle_id : Nat
  deriving DecidableEq

namespace vTensorStorage

/-- Modelled from the spec: the `vTensorStorage` constructor (Tensor.cpp is
not under src).  Computes `gpu_sizes`/`physical_extents` from the logical
sizes and layout, then either allocates the image/buffer (per
`storage_type`) immediately or defers allocation. -/
def create (storage_type : StorageType) (layout : GPUMemoryLayout)
    (sizes : List Nat) (dtype : ScalarType) (allocate : Bool) :
    vTensorStorage :=
  let g := calc_gpu_sizes sizes layout
  let ext := calc_extents g layout
  let len := multiply_integers g
  { storage_type := storage_type
    extents := ext
    buffer_length := len
    image :=
      if allocate && !(storage_type = StorageType.BUFFER : Bool) then
        some ⟨0, ext⟩
      else none
    buffer :=
      if allocate && (storage_type = StorageType.BUFFER : Bool) then
        some ⟨0, len⟩
      else none
    last_access := LastAccess.empty
    capacity := if allocate then element_size dtype * len else 0
    next_handle_id := 1 }

/-- Modelled from the spec: `vTensorStorage::transition` (declared at
Tensor.h lines 77-80; the body is in Tensor.cpp, not under src).  Appends a
memory barrier to the accumulator only if the previous recorded access
included a write or the new access mode includes a write, and updates
`last_access` to the requested {stage, access} pair synchronously.  Returns
the number of barriers appended together with the updated storage. -/
def transition (s : vTensorStorage) (stage : PipelineStage)
    (access : MemoryAccessFlags) : Nat × vTensorStorage :=
  let barriers := if s.last_access.access.write || access.write then 1 else 0
  (barriers, { s with last_access := ⟨stage, access⟩ })

/-- Modelled from the spec: `vTensorStorage::discard_and_reallocate`
(declared at Tensor.h lines 90-93; the body is in Tensor.cpp, not under
src).  Releases the current physical object without any barrier, allocates
a fresh one sized for the given `gpu_sizes`, and resets `last_access` to the
empty/no-op state. -/
def discard_and_reallocate (s : vTensorStorage) (gpu_sizes : List Nat)
    (layout : GPUMemoryLayout) (dtype : ScalarType) : vTensorStorage :=
  let ext := calc_extents gpu_sizes layout
  let len := multiply_integers gpu_sizes
  { s with
    extents := ext
    buffer_length := len
    image :=
      if (s.storage_type = StorageType.BUFFER : Bool) then none
      else some ⟨s.next_handle_id, ext⟩
    buffer :=
      if (s.storage_type = StorageType.BUFFER : Bool) then
        some ⟨s.next_handle_id, len⟩
      else none
    last_access := LastAccess.empty
    capacity := element_size dtype * len
    next_handle_id := s.next_handle_id + 1 }

/-- Modelled from the spec: `vTensorStorage::verify` (declared at Tensor.h
line 83; the body is in Tensor.cpp, not under src).  Confirms exactly one of
image/buffer is populated, with non-zero extents/buffer length, when the
resource is allocated; an unallocated resource has neither populated. -/
def verify (s : vTensorStorage) : Bool :=
  match s.image, s.buffer with
  | some img, none =>
      decide (0 < img.image_extents.x) && decide (0 < img.image_extents.y) &&
        decide (0 < img.image_extents.z)
  | none, some b => decide (0 < b.length)
  | none, none => true
  | some _, some _ => false

/-- The identity of the live physical memory object, if any. -/
def live_handle (s : vTensorStorage) : Option Nat :=
  match s.image, s.buffer with
  | some img, _ => some img.handle_id
  | none, some b => some b.handle_id
  | none, none => none

end vTensorStorage

/-- `api::UniformParamsBuffer` content: a small GPU-visible shape
descriptor.  Contents are modelled as the sequence of values written. -/
structure UniformParamsBuffer where
  data : List Nat
  deriving DecidableEq

/-- Errors surfaced synchronously by the tensor layer: a bounds-check
failure from `std::vector::at`, or an assertion-style precondition
violation. -/
inductive TensorError
  | outOfRange
  | preconditionViolation
  deriving DecidableEq

/-- `vTensor` (Tensor.h lines 96-283): shape metadata, the three lazily
created uniform-parameter buffers, and the owned storage. -/
structure vTensor where
  dtype : ScalarType
  memory_layout : GPUMemoryLayout
  sizes : List Nat
  gpu_sizes : List Nat
  cpu_sizes_uniform : Option UniformParamsBuffer
  gpu_sizes_uniform : Option UniformParamsBuffer
  extents_uniform : Option UniformParamsBuffer
  storage : vTensorStorage
  deriving DecidableEq

namespace vTensor

/-- Modelled from the spec: the `vTensor` constructor (Tensor.cpp is not
under src).  Derives `gpu_sizes` from `sizes`/`layout` and constructs the
contained storage; the uniform buffers start out not created. -/
def create (sizes : List Nat) (dtype : ScalarType)
    (storage_type : StorageType) (layout : GPUMemoryLayout)
    (allocate : Bool) : vTensor :=
  { dtype := dtype
    memory_layout := layout
    sizes := sizes
    gpu_sizes := calc_gpu_sizes sizes layout
    cpu_sizes_uniform := none
    gpu_sizes_uniform := none
    extents_uniform := none
    storage := vTensorStorage.create storage_type layout sizes dtype allocate }

/-- `vTensor::dim` (Tensor.h lines 201-203): the number of logical
dimensions. -/
def dim (t : vTensor) : Nat := t.sizes.length

/-- `vTensor::size(dim)` (Tensor.h lines 197-199): `sizes().at(dim)`;
`std::vector::at` raises an out-of-range error instead of undefined
behaviour when the index is out of bounds. -/
def size (t : vTensor) (d : Nat) : Except TensorError Nat :=
  if h : d < t.sizes.length then Except.ok (t.sizes.get ⟨d, h⟩)
  else Except.error TensorError.outOfRange

/-- `vTensor::numel` (Tensor.h lines 226-228). -/
def numel (t : vTensor) : Nat := multiply_integers t.sizes

/-- `vTensor::nbytes` (Tensor.h lines 230-232). -/
def nbytes (t : vTensor) : Nat := element_size t.dtype * t.numel

/-- `vTensor::gpu_numel` (Tensor.h lines 237-239). -/
def gpu_numel (t : vTensor) : Nat := multiply_integers t.gpu_sizes

/-- `vTensor::gpu_nbytes` (Tensor.h lines 244-246). -/
def gpu_nbytes (t : vTensor) : Nat := element_size t.dtype * t.gpu_numel

/-- Modelled from the spec: `vTensor::cpu_sizes_ubo` (Tensor.cpp is not
under src).  "The UBO will be created the first time this function is
called" and cached thereafter. -/
def cpu_sizes_ubo (t : vTensor) : UniformParamsBuffer × vTensor :=
  match t.cpu_sizes_uniform with
  | some u => (u, t)
  | none =>
      let u : UniformParamsBuffer := ⟨t.sizes⟩
      (u, { t with cpu_sizes_uniform := some u })

/-- Modelled from the spec: `vTensor::gpu_sizes_ubo` (Tensor.cpp is not
under src), created on first call and cached thereafter. -/
def gpu_sizes_ubo (t : vTensor) : UniformParamsBuffer × vTensor :=
  match t.gpu_sizes_uniform with
  | some u => (u, t)
  | none =>
      let u : UniformParamsBuffer := ⟨t.gpu_sizes⟩
      (u, { t with gpu_sizes_uniform := some u })

/-- The extents descriptor contents derived from the current padded sizes,
serialized as the three components. -/
def extents_data (t : vTensor) : List Nat :=
  let e := calc_extents t.gpu_sizes t.memory_layout
  [e.x, e.y, e.z]

/-- Modelled from the spec: `vTensor::extents_ubo` (Tensor.cpp is not under
src), created on first call and cached thereafter. -/
def extents_ubo (t : vTensor) : UniformParamsBuffer × vTensor :=
  match t.extents_uniform with
  | some u => (u, t)
  | none =>
      let u : UniformParamsBuffer := ⟨t.extents_data⟩
      (u, { t with extents_uniform := some u })

/-- Modelled from the spec: `vTensor::update_size_metadata` (declared at
Tensor.h lines 263-268; the body is in Tensor.cpp, not under src).  Updates
the logical and GPU sizes and refreshes the contents of whichever uniform
buffers have already been created, leaving the physical storage untouched. -/
def update_size_metadata (t : vTensor) (new_sizes : List Nat) : vTensor :=
  let g := calc_gpu_sizes new_sizes t.memory_layout
  let e := calc_extents g t.memory_layout
  { t with
    sizes := new_sizes
    gpu_sizes := g
    cpu_sizes_uniform :=
      t.cpu_sizes_uniform.map (fun _ => ⟨new_sizes⟩)
    gpu_sizes_uniform :=
      t.gpu_sizes_uniform.map (fun _ => ⟨g⟩)
    extents_uniform :=
      t.extents_uniform.map (fun _ => ⟨[e.x, e.y, e.z]⟩) }

/-- Modelled from the spec: `vTensor::reallocate` (declared at Tensor.h
lines 270-275; the body is in Tensor.cpp, not under src).  "Discard the
underlying VkImage or VkBuffer and re-allocate based on new tensor sizes":
updates the size metadata and discards/reallocates the storage for the new
padded sizes. -/
def reallocate (t : vTensor) (new_sizes : List Nat) : vTensor :=
  let t1 := update_size_metadata t new_sizes
  { t1 with
    storage :=
      t.storage.discard_and_reallocate t1.gpu_sizes t.memory_layout t.dtype }

/-- Modelled from the spec: `vTensor::virtual_resize` (declared at Tensor.h
lines 276-282; the body is in Tensor.cpp, not under src).  Updates only the
size metadata, "valid only when the new footprint fits within the
already-allocated physical resource"; violating the precondition fails
loudly as an assertion-style programming error. -/
def virtual_resize (t : vTensor) (new_sizes : List Nat) :
    Except TensorError vTensor :=
  let g := calc_gpu_sizes new_sizes t.memory_layout
  if element_size t.dtype * multiply_integers g ≤ t.storage.capacity then
    Except.ok (update_size_metadata t new_sizes)
  else
    Except.error TensorError.preconditionViolation

end vTensor

/-- Operations applicable to a storage resource during its lifetime after
construction: a synchronizing access, or a discard-and-reallocate. -/
inductive StorageOp
  | access (stage : PipelineStage) (flags : MemoryAccessFlags)
  | discard (gpu_sizes : List Nat) (layout : GPUMemoryLayout)
      (dtype : ScalarType)
  deriving DecidableEq

/-- Apply one lifetime operation to a storage resource. -/
def applyOp (s : vTensorStorage) : StorageOp → vTensorStorage
  | StorageOp.access st fl => (s.transition st fl).2
  | StorageOp.discard g l d => s.discard_and_reallocate g l d

/-- Run a sequence of lifetime operations on a storage resource. -/
def runOps (s : vTensorStorage) (ops : List StorageOp) : vTensorStorage :=
  ops.foldl applyOp s

/-- At most one physical memory object is live: never both an image and a
buffer simultaneously populated. -/
def atMostOneLive (s : vTensorStorage) : Prop :=
  ¬(s.image.isSome = true ∧ s.buffer.isSome = true)

instance (s : vTensorStorage) : Decidable (atMostOneLive s) := by
  unfold atMostOneLive
  infer_instance

/-- Handle-freshness bookkeeping: the live handle (if any) was drawn from
the fresh-handle supply. -/
def handles_fresh (s : vTensorStorage) : Bool :=
  match s.live_handle with
  | some h => decide (h < s.next_handle_id)
  | none => true

/- ### Arithmetic helper lemmas about the 4-alignment -/

theorem le_align_up4 (s : Nat) : s ≤ align_up4 s := by
  unfold align_up4
  omega

theorem align_up4_mod (s : Nat) : align_up4 s % 4 = 0 := by
  unfold align_up4
  omega

theorem align_up4_ge_four (s : Nat) (h : 0 < s) : 4 ≤ align_up4 s := by
  unfold align_up4
  omega

/- ### Structural lemmas about the padded-size computation -/

theorem length_pad_packed (p : Nat) :
    ∀ (i : Nat) (l : List Nat), (pad_packed p i l).length = l.length
  | _, [] => rfl
  | i, s :: rest => by
      simp [pad_packed, length_pad_packed p (i + 1) rest]

theorem getD_pad_packed (p : Nat) :
    ∀ (i : Nat) (l : List Nat) (j : Nat),
      (pad_packed p i l).getD j 0 =
        if i + j = p then align_up4 (l.getD j 0) else l.getD j 0
  | i, [], j => by
      simp [pad_packed, List.getD_nil]
      split
      · rfl
      · rfl
  | i, s :: rest, 0 => by
      simp [pad_packed, List.getD_cons_zero]
  | i, s :: rest, j + 1 => by
      simp only [pad_packed, List.getD_cons_succ]
      rw [getD_pad_packed p (i + 1) rest j]
      have h : i + 1 + j = i + (j + 1) := by omega
      rw [h]

theorem exists_le_of_mem_pad_packed (p : Nat) :
    ∀ (i : Nat) (l : List Nat) (a : Nat),
      a ∈ pad_packed p i l → ∃ b ∈ l, b ≤ a
  | i, [], a => by simp [pad_packed]
  | i, s :: rest, a => by
      simp only [pad_packed, List.mem_cons]
      rintro (rfl | hmem)
      · refine ⟨s, Or.inl rfl, ?_⟩
        split
        · exact le_align_up4 s
        · exact Nat.le_refl s
      · obtain ⟨b, hb, hle⟩ := exists_le_of_mem_pad_packed p (i + 1) rest a hmem
        exact ⟨b, Or.inr hb, hle⟩

/-- C2: for every valid (storage_kind, layout, sizes) combination used to
construct or resize a tensor view, the computed `gpu_sizes` (the value the
constructor stores in `gpu_sizes_`) has the same number of dimensions as the
logical sizes, every dimension of `gpu_sizes` is at least the corresponding
logical dimension, and the layout-selected packed dimension of `gpu_sizes`
is a multiple of 4. -/
theorem C2_gpu_sizes_invariant (sizes : List Nat) (layout : GPUMemoryLayout)
    (st : StorageType) (dtype : ScalarType) (alloc : Bool)
    (_hvalid : packed_dim layout sizes.length < sizes.length) :
    (vTensor.create sizes dtype st layout alloc).gpu_sizes =
        calc_gpu_sizes sizes layout ∧
    (calc_gpu_sizes sizes layout).length = sizes.length ∧
    (∀ i, i < sizes.length →
        sizes.getD i 0 ≤ (calc_gpu_sizes sizes layout).getD i 0) ∧
    (calc_gpu_sizes sizes layout).getD (packed_dim layout sizes.length) 0 % 4
        = 0 := by
  refine ⟨rfl, length_pad_packed _ 0 sizes, ?_, ?_⟩
  · intro i hi
    rw [calc_gpu_sizes, getD_pad_packed]
    simp only [Nat.zero_add]
    split
    · exact le_align_up4 _
    · exact Nat.le_refl _
  · rw [calc_gpu_sizes, getD_pad_packed]
    simp only [Nat.zero_add, if_pos rfl]
    exact align_up4_mod _

theorem C2_gpu_sizes_invariant_witness :
    (calc_gpu_sizes [1, 3, 8, 8] GPUMemoryLayout.TENSOR_CHANNELS_PACKED).length
        = 4 ∧
    [1, 3, 8, 8].getD 1 0 ≤
      (calc_gpu_sizes [1, 3, 8, 8]
          GPUMemoryLayout.TENSOR_CHANNELS_PACKED).getD 1 0 ∧
    (calc_gpu_sizes [1, 3, 8, 8] GPUMemoryLayout.TENSOR_CHANNELS_PACKED).getD
        1 0 % 4 = 0 := by
  have h := C2_gpu_sizes_invariant [1, 3, 8, 8]
    GPUMemoryLayout.TENSOR_CHANNELS_PACKED StorageType.TEXTURE_3D
    ScalarType.Float true (by decide)
  exact ⟨h.2.1, h.2.2.1 1 (by decide), h.2.2.2⟩

/-- C1: for every sequence of synchronizing accesses on one storage
resource, an access emits a memory barrier if and only if the previous
recorded access included a write or the newly requested access mode includes
a write; in particular two successive read-only accesses (read-after-read)
emit zero barriers. -/
theorem C1_barrier_iff_write (s : vTensorStorage) (stage : PipelineStage)
    (flags : MemoryAccessFlags) :
    ((s.transition stage flags).1 ≠ 0 ↔
      (s.last_access.access.write = true ∨ flags.write = true)) ∧
    (∀ (stage1 stage2 : PipelineStage) (flags1 flags2 : MemoryAccessFlags),
      flags1.write = false → flags2.write = false →
      ((s.transition stage1 flags1).2.transition stage2 flags2).1 = 0) := by
  constructor
  · unfold vTensorStorage.transition
    by_cases h1 : s.last_access.access.write <;>
      by_cases h2 : flags.write <;> simp [h1, h2]
  · intro stage1 stage2 flags1 flags2 h1 h2
    unfold vTensorStorage.transition
    simp [h1, h2]

theorem C1_barrier_iff_write_witness :
    ((vTensorStorage.create StorageType.BUFFER
        GPUMemoryLayout.TENSOR_WIDTH_PACKED [4] ScalarType.Float
        true).transition PipelineStage.COMPUTE MemoryAccessType.WRITE).1
      ≠ 0 ∧
    (((vTensorStorage.create StorageType.BUFFER
          GPUMemoryLayout.TENSOR_WIDTH_PACKED [4] ScalarType.Float
          true).transition PipelineStage.COMPUTE
          MemoryAccessType.READ).2.transition PipelineStage.COMPUTE
        MemoryAccessType.READ).1 = 0 := by
  constructor
  · exact (C1_barrier_iff_write _ PipelineStage.COMPUTE
      MemoryAccessType.WRITE).1.mpr (Or.inr rfl)
  · exact (C1_barrier_iff_write _ PipelineStage.COMPUTE
      MemoryAccessType.WRITE).2 PipelineStage.COMPUTE PipelineStage.COMPUTE
      MemoryAccessType.READ MemoryAccessType.READ rfl rfl

/-- C6: every synchronizing access request updates `last_access` to exactly
the requested {stage, access_mode} pair, synchronously with the call; after
a write access followed by a read access at a different stage, exactly one
barrier is emitted and `last_access` holds the read's stage and mode. -/
theorem C6_last_access_updated (s : vTensorStorage) (stage : PipelineStage)
    (flags : MemoryAccessFlags) :
    ((s.transition stage flags).2.last_access = ⟨stage, flags⟩) ∧
    (∀ stage2 : PipelineStage, stage ≠ stage2 →
      (((s.transition stage MemoryAccessType.WRITE).2.transition stage2
          MemoryAccessType.READ).1 = 1 ∧
        ((s.transition stage MemoryAccessType.WRITE).2.transition stage2
            MemoryAccessType.READ).2.last_access =
          ⟨stage2, MemoryAccessType.READ⟩)) := by
  constructor
  · rfl
  · intro stage2 _hne
    constructor
    · rfl
    · rfl

theorem C6_last_access_updated_witness :
    ((vTensorStorage.create StorageType.TEXTURE_3D
        GPUMemoryLayout.TENSOR_CHANNELS_PACKED [1, 3, 8, 8] ScalarType.Float
        true).transition PipelineStage.COMPUTE
        MemoryAccessType.READ).2.last_access =
      ⟨PipelineStage.COMPUTE, MemoryAccessType.READ⟩ ∧
    (((vTensorStorage.create StorageType.TEXTURE_3D
          GPUMemoryLayout.TENSOR_CHANNELS_PACKED [1, 3, 8, 8]
          ScalarType.Float true).transition PipelineStage.COMPUTE
          MemoryAccessType.WRITE).2.transition PipelineStage.TRANSFER
        MemoryAccessType.READ).1 = 1 := by
  constructor
  · exact (C6_last_access_updated _ PipelineStage.COMPUTE
      MemoryAccessType.READ).1
  · exact ((C6_last_access_updated _ PipelineStage.COMPUTE
      MemoryAccessType.WRITE).2 PipelineStage.TRANSFER (by decide)).1

/-- C4: calling `virtual_resize` with new sizes whose footprint exceeds the
already-allocated physical resource's capacity violates the stated
precondition and fails loudly as an assertion-style error, not a silently
accepted condition. -/
theorem C4_virtual_resize_precondition (t : vTensor) (new_sizes : List Nat)
    (hexceed : t.storage.capacity <
      element_size t.dtype *
        multiply_integers (calc_gpu_sizes new_sizes t.memory_layout)) :
    t.virtual_resize new_sizes =
      Except.error TensorError.preconditionViolation := by
  unfold vTensor.virtual_resize
  rw [if_neg (by omega)]

theorem C4_virtual_resize_precondition_witness :
    (vTensor.create [2] ScalarType.Float StorageType.BUFFER
        GPUMemoryLayout.TENSOR_WIDTH_PACKED true).virtual_resize [8] =
      Except.error TensorError.preconditionViolation :=
  C4_virtual_resize_precondition _ [8] (by decide)

/-- The identity of the physical object produced by a discard-and-reallocate
is the storage's next fresh handle. -/
theorem live_handle_discard (s : vTensorStorage) (g : List Nat)
    (layout : GPUMemoryLayout) (dtype : ScalarType) :
    (s.discard_and_reallocate g layout dtype).live_handle =
      some s.next_handle_id := by
  unfold vTensorStorage.discard_and_reallocate vTensorStorage.live_handle
  by_cases hb : s.storage_type = StorageType.BUFFER <;> simp [hb]

/-- C7: `discard_and_reallocate` releases the current physical memory object
regardless of its prior access state (no barrier is computed), allocates a
new one sized for the new gpu sizes, and resets `last_access` to the
empty/no-op state (no stage, no access). -/
theorem C7_discard_resets (s : vTensorStorage) (g : List Nat)
    (layout : GPUMemoryLayout) (dtype : ScalarType)
    (hfresh : handles_fresh s = true) :
    (s.discard_and_reallocate g layout dtype).last_access =
      LastAccess.empty ∧
    (s.discard_and_reallocate g layout dtype).buffer_length =
      multiply_integers g ∧
    (s.discard_and_reallocate g layout dtype).extents =
      calc_extents g layout ∧
    (s.discard_and_reallocate g layout dtype).capacity =
      element_size dtype * multiply_integers g ∧
    (s.discard_and_reallocate g layout dtype).live_handle ≠
      s.live_handle ∧
    (∀ la : LastAccess,
      ({ s with last_access := la } : vTensorStorage).discard_and_reallocate
          g layout dtype =
        s.discard_and_reallocate g layout dtype) := by
  refine ⟨rfl, rfl, rfl, rfl, ?_, fun la => rfl⟩
  rw [live_handle_discard]
  unfold handles_fresh at hfresh
  cases hcase : s.live_handle with
  | none =>
      intro heq
      exact Option.noConfusion heq
  | some h =>
      rw [hcase] at hfresh
      simp only [decide_eq_true_eq] at hfresh
      intro heq
      have : s.next_handle_id = h := Option.some.inj heq
      omega

theorem C7_discard_resets_witness :
    ((vTensorStorage.create StorageType.TEXTURE_3D
        GPUMemoryLayout.TENSOR_CHANNELS_PACKED [1, 3, 8, 8]
        ScalarType.Float true).discard_and_reallocate [2, 4, 4, 4]
        GPUMemoryLayout.TENSOR_CHANNELS_PACKED
        ScalarType.Float).last_access = LastAccess.empty ∧
    ((vTensorStorage.create StorageType.TEXTURE_3D
        GPUMemoryLayout.TENSOR_CHANNELS_PACKED [1, 3, 8, 8]
        ScalarType.Float true).discard_and_reallocate [2, 4, 4, 4]
        GPUMemoryLayout.TENSOR_CHANNELS_PACKED
        ScalarType.Float).live_handle ≠
      (vTensorStorage.create StorageType.TEXTURE_3D
        GPUMemoryLayout.TENSOR_CHANNELS_PACKED [1, 3, 8, 8]
        ScalarType.Float true).live_handle := by
  have h := C7_discard_resets
    (vTensorStorage.create StorageType.TEXTURE_3D
      GPUMemoryLayout.TENSOR_CHANNELS_PACKED [1, 3, 8, 8] ScalarType.Float
      true) [2, 4, 4, 4] GPUMemoryLayout.TENSOR_CHANNELS_PACKED
    ScalarType.Float (by decide)
  exact ⟨h.1, h.2.2.2.2.1⟩

/-- C3: `virtual_resize` never changes the identity of the underlying
physical handle (it updates only the logical/GPU size metadata and refreshes
uniform buffers, leaving the storage untouched), whereas `reallocate` with a
new footprint exceeding the current capacity always changes the physical
handle. -/
theorem C3_resize_handle_identity (t : vTensor) (new_sizes : List Nat) :
    (∀ t2 : vTensor, t.virtual_resize new_sizes = Except.ok t2 →
      t2.storage = t.storage) ∧
    (handles_fresh t.storage = true →
      t.storage.capacity <
        element_size t.dtype *
          multiply_integers (calc_gpu_sizes new_sizes t.memory_layout) →
      (t.reallocate new_sizes).storage.live_handle ≠
        t.storage.live_handle) := by
  constructor
  · intro t2 h
    unfold vTensor.virtual_resize at h
    replace h :
        (if element_size t.dtype *
              multiply_integers (calc_gpu_sizes new_sizes t.memory_layout) ≤
            t.storage.capacity then
          Except.ok (t.update_size_metadata new_sizes)
        else Except.error TensorError.preconditionViolation) =
          Except.ok t2 := h
    split at h
    · have ht2 : t2 = t.update_size_metadata new_sizes :=
        (Except.ok.inj h).symm
      rw [ht2]
      rfl
    · exact Except.noConfusion h
  · intro hfresh _hexceed heq
    rw [show (t.reallocate new_sizes).storage =
          t.storage.discard_and_reallocate
            (calc_gpu_sizes new_sizes t.memory_layout) t.memory_layout
            t.dtype
        from rfl, live_handle_discard] at heq
    unfold handles_fresh at hfresh
    cases hcase : t.storage.live_handle with
    | none =>
        rw [hcase] at heq
        exact Option.noConfusion heq
    | some h =>
        rw [hcase] at hfresh heq
        simp only [decide_eq_true_eq] at hfresh
        have : t.storage.next_handle_id = h := Option.some.inj heq
        omega

theorem C3_resize_handle_identity_witness :
    (vTensor.create [2, 4, 4] ScalarType.Float StorageType.TEXTURE_3D
          GPUMemoryLayout.TENSOR_WIDTH_PACKED true).virtual_resize
        [2, 4, 2] =
      Except.ok
        ((vTensor.create [2, 4, 4] ScalarType.Float StorageType.TEXTURE_3D
            GPUMemoryLayout.TENSOR_WIDTH_PACKED true).update_size_metadata
          [2, 4, 2]) ∧
    ((vTensor.create [2, 4, 4] ScalarType.Float StorageType.TEXTURE_3D
            GPUMemoryLayout.TENSOR_WIDTH_PACKED true).update_size_metadata
          [2, 4, 2]).storage =
      (vTensor.create [2, 4, 4] ScalarType.Float StorageType.TEXTURE_3D
          GPUMemoryLayout.TENSOR_WIDTH_PACKED true).storage ∧
    ((vTensor.create [2, 4, 4] ScalarType.Float StorageType.TEXTURE_3D
          GPUMemoryLayout.TENSOR_WIDTH_PACKED true).reallocate
        [2, 4, 32]).storage.live_handle ≠
      (vTensor.create [2, 4, 4] ScalarType.Float StorageType.TEXTURE_3D
          GPUMemoryLayout.TENSOR_WIDTH_PACKED true).storage.live_handle := by
  refine ⟨rfl, ?_, ?_⟩
  · exact (C3_resize_handle_identity
      (vTensor.create [2, 4, 4] ScalarType.Float StorageType.TEXTURE_3D
        GPUMemoryLayout.TENSOR_WIDTH_PACKED true) [2, 4, 2]).1 _ rfl
  · exact (C3_resize_handle_identity
      (vTensor.create [2, 4, 4] ScalarType.Float StorageType.TEXTURE_3D
        GPUMemoryLayout.TENSOR_WIDTH_PACKED true) [2, 4, 32]).2 (by decide)
      (by decide)

/-- A successful `virtual_resize` produces exactly the metadata update. -/
theorem virtual_resize_ok (t : vTensor) (ns : List Nat) (t2 : vTensor)
    (h : t.virtual_resize ns = Except.ok t2) :
    t2 = t.update_size_metadata ns := by
  unfold vTensor.virtual_resize at h
  replace h :
      (if element_size t.dtype *
            multiply_integers (calc_gpu_sizes ns t.memory_layout) ≤
          t.storage.capacity then
        Except.ok (t.update_size_metadata ns)
      else Except.error TensorError.preconditionViolation) =
        Except.ok t2 := h
  split at h
  · exact (Except.ok.inj h).symm
  · exact Except.noConfusion h

/-- After a metadata update, each uniform buffer accessor yields exactly the
post-change contents. -/
theorem update_ubo_data (t : vTensor) (ns : List Nat) :
    ((t.update_size_metadata ns).cpu_sizes_ubo).1.data = ns ∧
    ((t.update_size_metadata ns).gpu_sizes_ubo).1.data =
      calc_gpu_sizes ns t.memory_layout ∧
    ((t.update_size_metadata ns).extents_ubo).1.data =
      (t.update_size_metadata ns).extents_data := by
  refine ⟨?_, ?_, ?_⟩
  · cases h : t.cpu_sizes_uniform <;>
      simp [vTensor.update_size_metadata, vTensor.cpu_sizes_ubo, h]
  · cases h : t.gpu_sizes_uniform <;>
      simp [vTensor.update_size_metadata, vTensor.gpu_sizes_ubo, h]
  · cases h : t.extents_uniform <;>
      simp [vTensor.update_size_metadata, vTensor.extents_ubo,
        vTensor.extents_data, h]

/-- C5: each of the three uniform-parameter buffers is created on the first
accessor call and cached thereafter, and after any size-changing operation
(`reallocate` or a successful `virtual_resize`) its contents equal the
post-change sizes / gpu sizes / physical extents, never an earlier stale
value. -/
theorem C5_ubo_cache_freshness (t : vTensor) (ns : List Nat) :
    ((t.cpu_sizes_ubo).2.cpu_sizes_uniform = some (t.cpu_sizes_ubo).1 ∧
      (t.cpu_sizes_ubo).2.cpu_sizes_ubo =
        ((t.cpu_sizes_ubo).1, (t.cpu_sizes_ubo).2)) ∧
    ((t.gpu_sizes_ubo).2.gpu_sizes_uniform = some (t.gpu_sizes_ubo).1 ∧
      (t.gpu_sizes_ubo).2.gpu_sizes_ubo =
        ((t.gpu_sizes_ubo).1, (t.gpu_sizes_ubo).2)) ∧
    ((t.extents_ubo).2.extents_uniform = some (t.extents_ubo).1 ∧
      (t.extents_ubo).2.extents_ubo =
        ((t.extents_ubo).1, (t.extents_ubo).2)) ∧
    (((t.reallocate ns).cpu_sizes_ubo).1.data = ns ∧
      ((t.reallocate ns).gpu_sizes_ubo).1.data =
        calc_gpu_sizes ns t.memory_layout ∧
      ((t.reallocate ns).extents_ubo).1.data =
        (t.reallocate ns).extents_data) ∧
    (∀ t2 : vTensor, t.virtual_resize ns = Except.ok t2 →
      (t2.cpu_sizes_ubo).1.data = ns ∧
        (t2.gpu_sizes_ubo).1.data = calc_gpu_sizes ns t.memory_layout ∧
        (t2.extents_ubo).1.data = t2.extents_data) := by
  refine ⟨?_, ?_, ?_, ?_, ?_⟩
  · cases h : t.cpu_sizes_uniform <;> simp [vTensor.cpu_sizes_ubo, h]
  · cases h : t.gpu_sizes_uniform <;> simp [vTensor.gpu_sizes_ubo, h]
  · cases h : t.extents_uniform <;> simp [vTensor.extents_ubo, h]
  · refine ⟨?_, ?_, ?_⟩
    · cases h : t.cpu_sizes_uniform <;>
        simp [vTensor.reallocate, vTensor.update_size_metadata,
          vTensor.cpu_sizes_ubo, h]
    · cases h : t.gpu_sizes_uniform <;>
        simp [vTensor.reallocate, vTensor.update_size_metadata,
          vTensor.gpu_sizes_ubo, h]
    · cases h : t.extents_uniform <;>
        simp [vTensor.reallocate, vTensor.update_size_metadata,
          vTensor.extents_ubo, vTensor.extents_data, h]
  · intro t2 h
    rw [virtual_resize_ok t ns t2 h]
    exact update_ubo_data t ns

theorem C5_ubo_cache_freshness_witness :
    (((vTensor.create [1, 3, 8, 8] ScalarType.Float StorageType.TEXTURE_3D
          GPUMemoryLayout.TENSOR_CHANNELS_PACKED true).reallocate
        [1, 3, 4, 4]).cpu_sizes_ubo).1.data = [1, 3, 4, 4] ∧
    (((vTensor.create [1, 3, 8, 8] ScalarType.Float StorageType.TEXTURE_3D
          GPUMemoryLayout.TENSOR_CHANNELS_PACKED true).reallocate
        [1, 3, 4, 4]).gpu_sizes_ubo).1.data = [1, 4, 4, 4] ∧
    ((vTensor.create [1, 3, 8, 8] ScalarType.Float StorageType.TEXTURE_3D
          GPUMemoryLayout.TENSOR_CHANNELS_PACKED
          true).cpu_sizes_ubo).2.cpu_sizes_uniform =
      some ((vTensor.create [1, 3, 8, 8] ScalarType.Float
          StorageType.TEXTURE_3D GPUMemoryLayout.TENSOR_CHANNELS_PACKED
          true).cpu_sizes_ubo).1 := by
  have h := C5_ubo_cache_freshness
    (vTensor.create [1, 3, 8, 8] ScalarType.Float StorageType.TEXTURE_3D
      GPUMemoryLayout.TENSOR_CHANNELS_PACKED true) [1, 3, 4, 4]
  refine ⟨h.2.2.2.1.1, ?_, h.1.1⟩
  have h2 := h.2.2.2.1.2.1
  rw [h2]
  rfl

/-- C8: a view constructed with logical sizes [1,3,8,8], channels-packed
layout and float32 dtype has `gpu_sizes` = [1,4,8,8] (channel dimension
padded from 3 to 4), `nbytes()` = 1*3*8*8*4 = 768 and `gpu_nbytes()` =
1*4*8*8*4 = 1024, where `nbytes` is the element size of the dtype times the
product of the sizes and `gpu_nbytes` the element size times the product of
the gpu sizes. -/
theorem C8_scenario_1388 :
    (vTensor.create [1, 3, 8, 8] ScalarType.Float StorageType.TEXTURE_3D
        GPUMemoryLayout.TENSOR_CHANNELS_PACKED true).gpu_sizes =
      [1, 4, 8, 8] ∧
    (vTensor.create [1, 3, 8, 8] ScalarType.Float StorageType.TEXTURE_3D
        GPUMemoryLayout.TENSOR_CHANNELS_PACKED true).nbytes = 768 ∧
    (vTensor.create [1, 3, 8, 8] ScalarType.Float StorageType.TEXTURE_3D
        GPUMemoryLayout.TENSOR_CHANNELS_PACKED true).gpu_nbytes = 1024 ∧
    (vTensor.create [1, 3, 8, 8] ScalarType.Float StorageType.TEXTURE_3D
        GPUMemoryLayout.TENSOR_CHANNELS_PACKED true).nbytes =
      element_size ScalarType.Float *
        multiply_integers
          (vTensor.create [1, 3, 8, 8] ScalarType.Float
              StorageType.TEXTURE_3D GPUMemoryLayout.TENSOR_CHANNELS_PACKED
              true).sizes ∧
    (vTensor.create [1, 3, 8, 8] ScalarType.Float StorageType.TEXTURE_3D
        GPUMemoryLayout.TENSOR_CHANNELS_PACKED true).gpu_nbytes =
      element_size ScalarType.Float *
        multiply_integers
          (vTensor.create [1, 3, 8, 8] ScalarType.Float
              StorageType.TEXTURE_3D GPUMemoryLayout.TENSOR_CHANNELS_PACKED
              true).gpu_sizes := by
  decide

/- ### Lemmas for the one-live-object invariant and the verification pass -/

theorem calc_gpu_sizes_all_pos (sizes : List Nat) (layout : GPUMemoryLayout)
    (hpos : ∀ a ∈ sizes, 0 < a) :
    ∀ a ∈ calc_gpu_sizes sizes layout, 0 < a := by
  intro a ha
  obtain ⟨b, hb, hle⟩ := exists_le_of_mem_pad_packed _ 0 sizes a ha
  exact Nat.lt_of_lt_of_le (hpos b hb) hle

theorem getD_calc_gpu_sizes_packed_ge_four (sizes : List Nat)
    (layout : GPUMemoryLayout) (d : Nat)
    (hp : packed_dim layout sizes.length < sizes.length)
    (hpos : ∀ a ∈ sizes, 0 < a) :
    4 ≤ (calc_gpu_sizes sizes layout).getD
        (packed_dim layout sizes.length) d := by
  have hlen : (calc_gpu_sizes sizes layout).length = sizes.length :=
    length_pad_packed _ 0 sizes
  rw [List.getD_eq_getElem _ _ (by omega),
    ← List.getD_eq_getElem (calc_gpu_sizes sizes layout) 0 (by omega),
    calc_gpu_sizes, getD_pad_packed]
  simp only [Nat.zero_add, if_pos rfl]
  apply align_up4_ge_four
  apply hpos
  rw [List.getD_eq_getElem _ _ hp]
  exact List.getElem_mem hp

theorem dim_whcn_pos (g : List Nat) (i : Nat) (hi : i < g.length)
    (hall : ∀ a ∈ g, 0 < a) : 0 < dim_whcn g i := by
  unfold dim_whcn
  rw [if_pos hi]
  have hlt : g.length - 1 - i < g.length := by omega
  rw [List.getD_eq_getElem _ _ hlt]
  exact hall _ (List.getElem_mem hlt)

theorem calc_extents_pos (sizes : List Nat) (layout : GPUMemoryLayout)
    (h3 : 3 ≤ sizes.length) (hpos : ∀ a ∈ sizes, 0 < a) :
    0 < (calc_extents (calc_gpu_sizes sizes layout) layout).x ∧
    0 < (calc_extents (calc_gpu_sizes sizes layout) layout).y ∧
    0 < (calc_extents (calc_gpu_sizes sizes layout) layout).z := by
  have hlen : (calc_gpu_sizes sizes layout).length = sizes.length :=
    length_pad_packed _ 0 sizes
  have hall := calc_gpu_sizes_all_pos sizes layout hpos
  have hN :
      0 < ((calc_gpu_sizes sizes layout).take
        ((calc_gpu_sizes sizes layout).length - 3)).prod := by
    apply List.prod_pos
    intro a ha
    exact hall a (List.take_subset _ _ ha)
  have hW : 0 < dim_whcn (calc_gpu_sizes sizes layout) 0 :=
    dim_whcn_pos _ 0 (by omega) hall
  have hH : 0 < dim_whcn (calc_gpu_sizes sizes layout) 1 :=
    dim_whcn_pos _ 1 (by omega) hall
  have hC : 0 < dim_whcn (calc_gpu_sizes sizes layout) 2 :=
    dim_whcn_pos _ 2 (by omega) hall
  cases layout with
  | TENSOR_WIDTH_PACKED =>
      have h4 : 4 ≤ dim_whcn
          (calc_gpu_sizes sizes GPUMemoryLayout.TENSOR_WIDTH_PACKED) 0 := by
        unfold dim_whcn
        rw [if_pos (by omega)]
        have hidx : (calc_gpu_sizes sizes
              GPUMemoryLayout.TENSOR_WIDTH_PACKED).length - 1 - 0 =
            packed_dim GPUMemoryLayout.TENSOR_WIDTH_PACKED sizes.length := by
          rw [hlen]
          show sizes.length - 1 - 0 = sizes.length - 1
          omega
        rw [hidx]
        exact getD_calc_gpu_sizes_packed_ge_four sizes _ 1
          (by show sizes.length - 1 < sizes.length; omega) hpos
      refine ⟨?_, hH, Nat.mul_pos hC hN⟩
      show 0 < dim_whcn (calc_gpu_sizes sizes
          GPUMemoryLayout.TENSOR_WIDTH_PACKED) 0 / 4
      omega
  | TENSOR_HEIGHT_PACKED =>
      have h4 : 4 ≤ dim_whcn
          (calc_gpu_sizes sizes GPUMemoryLayout.TENSOR_HEIGHT_PACKED) 1 := by
        unfold dim_whcn
        rw [if_pos (by omega)]
        have hidx : (calc_gpu_sizes sizes
              GPUMemoryLayout.TENSOR_HEIGHT_PACKED).length - 1 - 1 =
            packed_dim GPUMemoryLayout.TENSOR_HEIGHT_PACKED sizes.length := by
          rw [hlen]
          show sizes.length - 1 - 1 = sizes.length - 2
          omega
        rw [hidx]
        exact getD_calc_gpu_sizes_packed_ge_four sizes _ 1
          (by show sizes.length - 2 < sizes.length; omega) hpos
      refine ⟨hW, ?_, Nat.mul_pos hC hN⟩
      show 0 < dim_whcn (calc_gpu_sizes sizes
          GPUMemoryLayout.TENSOR_HEIGHT_PACKED) 1 / 4
      omega
  | TENSOR_CHANNELS_PACKED =>
      have h4 : 4 ≤ dim_whcn
          (calc_gpu_sizes sizes GPUMemoryLayout.TENSOR_CHANNELS_PACKED) 2 := by
        unfold dim_whcn
        rw [if_pos (by omega)]
        have hidx : (calc_gpu_sizes sizes
              GPUMemoryLayout.TENSOR_CHANNELS_PACKED).length - 1 - 2 =
            packed_dim GPUMemoryLayout.TENSOR_CHANNELS_PACKED sizes.length := by
          rw [hlen]
          show sizes.length - 1 - 2 = sizes.length - 3
          omega
        rw [hidx]
        exact getD_calc_gpu_sizes_packed_ge_four sizes _ 1
          (by show sizes.length - 3 < sizes.length; omega) hpos
      refine ⟨hW, hH, ?_⟩
      show 0 < dim_whcn (calc_gpu_sizes sizes
          GPUMemoryLayout.TENSOR_CHANNELS_PACKED) 2 / 4 *
        ((calc_gpu_sizes sizes GPUMemoryLayout.TENSOR_CHANNELS_PACKED).take
          ((calc_gpu_sizes sizes
            GPUMemoryLayout.TENSOR_CHANNELS_PACKED).length - 3)).prod
      exact Nat.mul_pos (by omega) hN

theorem multiply_integers_calc_gpu_sizes_pos (sizes : List Nat)
    (layout : GPUMemoryLayout) (hpos : ∀ a ∈ sizes, 0 < a) :
    0 < multiply_integers (calc_gpu_sizes sizes layout) :=
  List.prod_pos (calc_gpu_sizes_all_pos sizes layout hpos)

theorem verify_create_true (st : StorageType) (layout : GPUMemoryLayout)
    (sizes : List Nat) (dtype : ScalarType) (h3 : 3 ≤ sizes.length)
    (hpos : ∀ a ∈ sizes, 0 < a) :
    (vTensorStorage.create st layout sizes dtype true).verify = true := by
  obtain ⟨hx, hy, hz⟩ := calc_extents_pos sizes layout h3 hpos
  have hlen := multiply_integers_calc_gpu_sizes_pos sizes layout hpos
  unfold vTensorStorage.create vTensorStorage.verify
  by_cases hb : st = StorageType.BUFFER <;> simp [hb, hx, hy, hz, hlen]

theorem verify_discard_true (s : vTensorStorage) (sizes : List Nat)
    (layout : GPUMemoryLayout) (dtype : ScalarType) (h3 : 3 ≤ sizes.length)
    (hpos : ∀ a ∈ sizes, 0 < a) :
    (s.discard_and_reallocate (calc_gpu_sizes sizes layout) layout
        dtype).verify = true := by
  obtain ⟨hx, hy, hz⟩ := calc_extents_pos sizes layout h3 hpos
  have hlen := multiply_integers_calc_gpu_sizes_pos sizes layout hpos
  unfold vTensorStorage.discard_and_reallocate vTensorStorage.verify
  by_cases hb : s.storage_type = StorageType.BUFFER <;>
    simp [hb, hx, hy, hz, hlen]

theorem atMostOneLive_create (st : StorageType) (layout : GPUMemoryLayout)
    (sizes : List Nat) (dtype : ScalarType) (alloc : Bool) :
    atMostOneLive (vTensorStorage.create st layout sizes dtype alloc) := by
  unfold atMostOneLive vTensorStorage.create
  by_cases hb : st = StorageType.BUFFER <;> cases alloc <;> simp [hb]

theorem atMostOneLive_applyOp (s : vTensorStorage) (op : StorageOp)
    (h : atMostOneLive s) : atMostOneLive (applyOp s op) := by
  cases op with
  | access st fl => exact h
  | discard g l d =>
      unfold applyOp vTensorStorage.discard_and_reallocate atMostOneLive
      by_cases hb : s.storage_type = StorageType.BUFFER <;> simp [hb]

theorem atMostOneLive_runOps :
    ∀ (ops : List StorageOp) (s : vTensorStorage),
      atMostOneLive s → atMostOneLive (runOps s ops)
  | [], _, h => h
  | op :: rest, s, h =>
      atMostOneLive_runOps rest (applyOp s op) (atMostOneLive_applyOp s op h)

/-- C9: at every point in a storage resource's lifetime at most one physical
memory object is live (never both an image and a buffer simultaneously
backed by allocated memory), and the internal verification pass run after
construction and after reallocation confirms that exactly one of
image/buffer is populated with non-zero extents / buffer length when
allocated. -/
theorem C9_single_live_object :
    (∀ (st : StorageType) (layout : GPUMemoryLayout) (sizes : List Nat)
        (dtype : ScalarType) (alloc : Bool) (ops : List StorageOp),
      atMostOneLive
        (runOps (vTensorStorage.create st layout sizes dtype alloc) ops)) ∧
    (∀ (st : StorageType) (layout : GPUMemoryLayout) (sizes : List Nat)
        (dtype : ScalarType), 3 ≤ sizes.length → (∀ a ∈ sizes, 0 < a) →
      (vTensorStorage.create st layout sizes dtype true).verify = true) ∧
    (∀ (s : vTensorStorage) (sizes : List Nat) (layout : GPUMemoryLayout)
        (dtype : ScalarType), 3 ≤ sizes.length → (∀ a ∈ sizes, 0 < a) →
      (s.discard_and_reallocate (calc_gpu_sizes sizes layout) layout
          dtype).verify = true) := by
  refine ⟨?_, ?_, ?_⟩
  · intro st layout sizes dtype alloc ops
    exact atMostOneLive_runOps ops _
      (atMostOneLive_create st layout sizes dtype alloc)
  · intro st layout sizes dtype h3 hpos
    exact verify_create_true st layout sizes dtype h3 hpos
  · intro s sizes layout dtype h3 hpos
    exact verify_discard_true s sizes layout dtype h3 hpos

theorem C9_single_live_object_witness :
    atMostOneLive
      (runOps
        (vTensorStorage.create StorageType.TEXTURE_3D
          GPUMemoryLayout.TENSOR_CHANNELS_PACKED [1, 3, 8, 8]
          ScalarType.Float true)
        [StorageOp.access PipelineStage.COMPUTE MemoryAccessType.WRITE,
          StorageOp.discard [1, 4, 4, 4]
            GPUMemoryLayout.TENSOR_CHANNELS_PACKED ScalarType.Float]) ∧
    (vTensorStorage.create StorageType.TEXTURE_3D
        GPUMemoryLayout.TENSOR_CHANNELS_PACKED [1, 3, 8, 8] ScalarType.Float
        true).verify = true ∧
    ((vTensorStorage.create StorageType.BUFFER
        GPUMemoryLayout.TENSOR_WIDTH_PACKED [2, 2, 2] ScalarType.Float
        true).discard_and_reallocate
        (calc_gpu_sizes [2, 2, 2] GPUMemoryLayout.TENSOR_WIDTH_PACKED)
        GPUMemoryLayout.TENSOR_WIDTH_PACKED ScalarType.Float).verify =
      true := by
  refine ⟨C9_single_live_object.1 _ _ _ _ _ _, ?_, ?_⟩
  · exact C9_single_live_object.2.1 StorageType.TEXTURE_3D
      GPUMemoryLayout.TENSOR_CHANNELS_PACKED [1, 3, 8, 8] ScalarType.Float
      (by decide) (by decide)
  · exact C9_single_live_object.2.2 _ [2, 2, 2]
      GPUMemoryLayout.TENSOR_WIDTH_PACKED ScalarType.Float (by decide)
      (by decide)

/-- C10: `vTensor::size(d)` returns the d-th logical size when
`d < dim()`, and fails with the `std::vector::at` out-of-range bounds check
(not undefined behaviour) when `d >= dim()`. -/
theorem C10_size_at_bounds (t : vTensor) (d : Nat) :
    (∀ h : d < t.dim, t.size d = Except.ok (t.sizes.get ⟨d, h⟩)) ∧
    (t.dim ≤ d → t.size d = Except.error TensorError.outOfRange) := by
  constructor
  · intro h
    unfold vTensor.size
    exact dif_pos h
  · intro h
    unfold vTensor.dim at h
    unfold vTensor.size
    exact dif_neg (by omega)

theorem C10_size_at_bounds_witness :
    (vTensor.create [5, 7] ScalarType.Float StorageType.TEXTURE_3D
        GPUMemoryLayout.TENSOR_WIDTH_PACKED true).size 1 = Except.ok 7 ∧
    (vTensor.create [5, 7] ScalarType.Float StorageType.TEXTURE_3D
        GPUMemoryLayout.TENSOR_WIDTH_PACKED true).size 2 =
      Except.error TensorError.outOfRange := by
  constructor
  · exact (C10_size_at_bounds _ 1).1 (by decide)
  · exact (C10_size_at_bounds _ 2).2 (by decide)

end VkCompute
